import Mathlib

/-!
Shallow embedding of the computational core of the psk1RM app
(file src/psk1rm.py): the four 1RM estimation formulas, the
string-dispatching estimator get_1rm, and the weekly growth
projection loop that builds projection_data.  Python float
arithmetic is modelled over the real numbers.
-/

/-- Epley formula (src/psk1rm.py, calculate_epley): weight for one rep,
otherwise weight * (1 + reps / 30). -/
noncomputable def calculate_epley (weight : ℝ) (reps : ℕ) : ℝ :=
  if reps = 1 then weight
  else weight * (1 + (reps : ℝ) / 30)

/-- Brzycki formula (src/psk1rm.py, calculate_brzycki): weight for one rep,
weight unchanged for reps >= 37, otherwise weight * (36 / (37 - reps)). -/
noncomputable def calculate_brzycki (weight : ℝ) (reps : ℕ) : ℝ :=
  if reps = 1 then weight
  else if 37 ≤ reps then weight
  else weight * (36 / (37 - (reps : ℝ)))

/-- Lombardi formula (src/psk1rm.py, calculate_lombardi): weight for one rep,
otherwise weight * reps ^ 0.10 (real exponentiation). -/
noncomputable def calculate_lombardi (weight : ℝ) (reps : ℕ) : ℝ :=
  if reps = 1 then weight
  else weight * (reps : ℝ) ^ (0.10 : ℝ)

/-- OConner formula (src/psk1rm.py, calculate_oconner): weight for one rep,
otherwise weight * (1 + 0.025 * reps). -/
noncomputable def calculate_oconner (weight : ℝ) (reps : ℕ) : ℝ :=
  if reps = 1 then weight
  else weight * (1 + 0.025 * (reps : ℝ))

/-- Dispatcher (src/psk1rm.py, get_1rm): selects a formula by its string
label; the label for the averaging mode is the Danish word Gennemsnit, which
averages the four individual formulas; any other label falls through to the
sentinel 0. -/
noncomputable def get_1rm (weight : ℝ) (reps : ℕ) (method : String) : ℝ :=
  if method = "Epley" then calculate_epley weight reps
  else if method = "Brzycki" then calculate_brzycki weight reps
  else if method = "Lombardi" then calculate_lombardi weight reps
  else if method = "O\x27Conner" then calculate_oconner weight reps
  else if method = "Gennemsnit" then
    (calculate_epley weight reps + calculate_brzycki weight reps +
      calculate_lombardi weight reps + calculate_oconner weight reps) / 4
  else 0

/-- Average weekly growth rate (src/psk1rm.py line 92):
base_rate * modifier. -/
noncomputable def weekly_rate_avg (base_rate modifier : ℝ) : ℝ :=
  base_rate * modifier

/-- Optimistic weekly growth rate (src/psk1rm.py line 93):
base_rate * modifier * 1.5. -/
noncomputable def weekly_rate_high (base_rate modifier : ℝ) : ℝ :=
  base_rate * modifier * 1.5

/-- Conservative weekly growth rate (src/psk1rm.py line 94):
base_rate * modifier * 0.5. -/
noncomputable def weekly_rate_low (base_rate modifier : ℝ) : ℝ :=
  base_rate * modifier * 0.5

/-- One row of the projection table (src/psk1rm.py lines 104-110): week
index (Uge), formula label (Metode), and the three projected values. -/
structure ProjectionRow where
  uge : ℤ
  metode : String
  estimeret_1rm : ℝ
  optimistisk : ℝ
  konservativ : ℝ

/-- The body of the projection loop (src/psk1rm.py lines 103-114): given the
number of remaining iterations, the current week index and the three running
totals, emit a row with the current values, then advance each total by its
own rate. -/
noncomputable def projectionLoop (formula_choice : String)
    (rate_avg rate_high rate_low : ℝ) :
    ℕ → ℤ → ℝ → ℝ → ℝ → List ProjectionRow
  | 0, _, _, _, _ => []
  | n + 1, w, val_avg, val_high, val_low =>
    ⟨w, formula_choice, val_avg, val_high, val_low⟩ ::
      projectionLoop formula_choice rate_avg rate_high rate_low n (w + 1)
        (val_avg * (1 + rate_avg)) (val_high * (1 + rate_high))
        (val_low * (1 + rate_low))

/-- The projection table (src/psk1rm.py lines 92-114): derive the three
weekly rates from the base rate and the nutrition modifier, then run the
loop for week = 0 .. weeks (Python range(weeks + 1): empty when
weeks + 1 <= 0), starting all three running totals at the current 1RM. -/
noncomputable def projection_data (current_1rm : ℝ) (formula_choice : String)
    (base_rate modifier : ℝ) (weeks : ℤ) : List ProjectionRow :=
  projectionLoop formula_choice (weekly_rate_avg base_rate modifier)
    (weekly_rate_high base_rate modifier) (weekly_rate_low base_rate modifier)
    (weeks + 1).toNat 0 current_1rm current_1rm current_1rm

/-- The five formula labels the dispatcher recognizes. -/
def recognizedLabels : List String :=
  ["Epley", "Brzycki", "Lombardi", "O\x27Conner", "Gennemsnit"]

section HelperLemmas

/-- The loop emits exactly as many rows as it has iterations left. -/
theorem projectionLoop_length (fc : String) (ra rh rl : ℝ) :
    ∀ (n : ℕ) (w : ℤ) (va vh vl : ℝ),
      (projectionLoop fc ra rh rl n w va vh vl).length = n := by
  intro n
  induction n with
  | zero => intro w va vh vl; simp [projectionLoop]
  | succ n ih => intro w va vh vl; simp [projectionLoop, ih]

/-- Closed form of the loop: the row at index i carries week w + i and each
running total multiplied by the i-th power of its growth factor. -/
theorem projectionLoop_getElem (fc : String) (ra rh rl : ℝ) :
    ∀ (n i : ℕ) (w : ℤ) (va vh vl : ℝ), i < n →
      (projectionLoop fc ra rh rl n w va vh vl)[i]? =
        some ⟨w + i, fc, va * (1 + ra) ^ i, vh * (1 + rh) ^ i,
          vl * (1 + rl) ^ i⟩ := by
  intro n
  induction n with
  | zero => intro i w va vh vl h; exact absurd h (Nat.not_lt_zero i)
  | succ n ih =>
    intro i w va vh vl h
    cases i with
    | zero => simp [projectionLoop]
    | succ i =>
      rw [projectionLoop, List.getElem?_cons_succ,
        ih i (w + 1) _ _ _ (by omega)]
      simp only [ProjectionRow.mk.injEq, Option.some.injEq]
      refine ⟨by push_cast; ring, trivial, ?_, ?_, ?_⟩ <;>
        rw [pow_succ] <;> ring

/-- Every row of the loop keeps the ordering conservative <= average
<= optimistic (together with non-negativity of the conservative value)
provided the rates are ordered and the starting totals are. -/
theorem projectionLoop_ordering (fc : String) (ra rh rl : ℝ)
    (hrl : 0 ≤ rl) (hra : rl ≤ ra) (hrh : ra ≤ rh) :
    ∀ (n : ℕ) (w : ℤ) (va vh vl : ℝ), 0 ≤ vl → vl ≤ va → va ≤ vh →
      ∀ row ∈ projectionLoop fc ra rh rl n w va vh vl,
        0 ≤ row.konservativ ∧ row.konservativ ≤ row.estimeret_1rm ∧
          row.estimeret_1rm ≤ row.optimistisk := by
  intro n
  induction n with
  | zero => intro w va vh vl _ _ _ row hrow; simp [projectionLoop] at hrow
  | succ n ih =>
    intro w va vh vl h0 h1 h2 row hrow
    rw [projectionLoop, List.mem_cons] at hrow
    rcases hrow with h | h
    · subst h; exact ⟨h0, h1, h2⟩
    · exact ih (w + 1) _ _ _
        (mul_nonneg h0 (by linarith))
        (mul_le_mul h1 (by linarith) (by linarith) (le_trans h0 h1))
        (mul_le_mul h2 (by linarith) (by linarith)
          (le_trans h0 (le_trans h1 h2)))
        row h

/-- The dispatcher returns the sentinel 0 on any unrecognized label. -/
theorem get_1rm_of_unrecognized (weight : ℝ) (reps : ℕ) (method : String)
    (h1 : method ≠ "Epley") (h2 : method ≠ "Brzycki")
    (h3 : method ≠ "Lombardi") (h4 : method ≠ "O\x27Conner")
    (h5 : method ≠ "Gennemsnit") : get_1rm weight reps method = 0 := by
  rw [get_1rm, if_neg h1, if_neg h2, if_neg h3, if_neg h4, if_neg h5]

/-- Dispatch on the Epley label. -/
theorem get_1rm_epley (weight : ℝ) (reps : ℕ) :
    get_1rm weight reps "Epley" = calculate_epley weight reps := by
  rw [get_1rm, if_pos rfl]

/-- Dispatch on the Brzycki label. -/
theorem get_1rm_brzycki (weight : ℝ) (reps : ℕ) :
    get_1rm weight reps "Brzycki" = calculate_brzycki weight reps := by
  rw [get_1rm, if_neg (by decide), if_pos rfl]

/-- Dispatch on the Lombardi label. -/
theorem get_1rm_lombardi (weight : ℝ) (reps : ℕ) :
    get_1rm weight reps "Lombardi" = calculate_lombardi weight reps := by
  rw [get_1rm, if_neg (by decide), if_neg (by decide), if_pos rfl]

/-- Dispatch on the OConner label. -/
theorem get_1rm_oconner (weight : ℝ) (reps : ℕ) :
    get_1rm weight reps "O\x27Conner" = calculate_oconner weight reps := by
  rw [get_1rm, if_neg (by decide), if_neg (by decide), if_neg (by decide),
    if_pos rfl]

/-- Dispatch on the averaging label Gennemsnit. -/
theorem get_1rm_gennemsnit (weight : ℝ) (reps : ℕ) :
    get_1rm weight reps "Gennemsnit" =
      (calculate_epley weight reps + calculate_brzycki weight reps +
        calculate_lombardi weight reps + calculate_oconner weight reps) / 4 := by
  rw [get_1rm, if_neg (by decide), if_neg (by decide), if_neg (by decide),
    if_neg (by decide), if_pos rfl]

end HelperLemmas

/-- Claim C4: for every weight > 0 and reps >= 1, the Average formula's
result equals the arithmetic mean of the Epley, Brzycki, Lombardi and
OConner formulas each evaluated independently at the same (weight, reps). -/
theorem C4_average_is_mean_of_four (weight : ℝ) (reps : ℕ)
    (hw : 0 < weight) (hr : 1 ≤ reps) :
    get_1rm weight reps "Gennemsnit" =
      (calculate_epley weight reps + calculate_brzycki weight reps +
        calculate_lombardi weight reps + calculate_oconner weight reps) / 4 :=
  get_1rm_gennemsnit weight reps

/-- Witness for C4 at weight 100, reps 5. -/
theorem C4_average_is_mean_of_four_witness :
    (0 : ℝ) < 100 ∧ 1 ≤ 5 ∧
      get_1rm 100 5 "Gennemsnit" =
        (calculate_epley 100 5 + calculate_brzycki 100 5 +
          calculate_lombardi 100 5 + calculate_oconner 100 5) / 4 :=
  ⟨by norm_num, by norm_num,
    C4_average_is_mean_of_four 100 5 (by norm_num) (by norm_num)⟩

/-- Claim C5: for every valid weight w > 0 and every formula kind,
estimating at reps = 1 returns exactly w (the reps = 1 short-circuit). -/
theorem C5_reps_one_short_circuit (w : ℝ) (hw : 0 < w) :
    get_1rm w 1 "Epley" = w ∧ get_1rm w 1 "Brzycki" = w ∧
      get_1rm w 1 "Lombardi" = w ∧ get_1rm w 1 "O\x27Conner" = w ∧
      get_1rm w 1 "Gennemsnit" = w := by
  refine ⟨?_, ?_, ?_, ?_, ?_⟩
  · rw [get_1rm_epley]; simp [calculate_epley]
  · rw [get_1rm_brzycki]; simp [calculate_brzycki]
  · rw [get_1rm_lombardi]; simp [calculate_lombardi]
  · rw [get_1rm_oconner]; simp [calculate_oconner]
  · rw [get_1rm_gennemsnit]
    have h1 : calculate_epley w 1 = w := by simp [calculate_epley]
    have h2 : calculate_brzycki w 1 = w := by simp [calculate_brzycki]
    have h3 : calculate_lombardi w 1 = w := by simp [calculate_lombardi]
    have h4 : calculate_oconner w 1 = w := by simp [calculate_oconner]
    rw [h1, h2, h3, h4]; ring

/-- Witness for C5 at w = 2. -/
theorem C5_reps_one_short_circuit_witness :
    (0 : ℝ) < 2 ∧
      (get_1rm 2 1 "Epley" = 2 ∧ get_1rm 2 1 "Brzycki" = 2 ∧
        get_1rm 2 1 "Lombardi" = 2 ∧ get_1rm 2 1 "O\x27Conner" = 2 ∧
        get_1rm 2 1 "Gennemsnit" = 2) :=
  ⟨by norm_num, C5_reps_one_short_circuit 2 (by norm_num)⟩

/-- Claim C9: for every weight w > 0 and reps >= 37, the Brzycki formula
returns w unchanged, avoiding the zero or negative denominator 37 - reps. -/
theorem C9_brzycki_high_reps_identity (weight : ℝ) (reps : ℕ)
    (hw : 0 < weight) (hr : 37 ≤ reps) :
    get_1rm weight reps "Brzycki" = weight := by
  rw [get_1rm_brzycki]
  simp only [calculate_brzycki]
  rw [if_neg (by omega), if_pos hr]

/-- Witness for C9 at weight 2, reps 40. -/
theorem C9_brzycki_high_reps_identity_witness :
    (0 : ℝ) < 2 ∧ 37 ≤ 40 ∧ get_1rm 2 40 "Brzycki" = 2 :=
  ⟨by norm_num, by norm_num,
    C9_brzycki_high_reps_identity 2 40 (by norm_num) (by norm_num)⟩

/-- Claim C10: for every weight, reps and formula selector that is not one
of the five labels handled by the dispatcher, get_1rm returns the sentinel
value 0 (it does not raise and does not return any formula result). -/
theorem C10_unrecognized_label_sentinel (weight : ℝ) (reps : ℕ)
    (method : String) (h : method ∉ recognizedLabels) :
    get_1rm weight reps method = 0 := by
  simp only [recognizedLabels, List.mem_cons, List.not_mem_nil, or_false,
    not_or] at h
  exact get_1rm_of_unrecognized weight reps method h.1 h.2.1 h.2.2.1
    h.2.2.2.1 h.2.2.2.2

/-- Witness for C10 at the unrecognized label Foo. -/
theorem C10_unrecognized_label_sentinel_witness :
    "Foo" ∉ recognizedLabels ∧ get_1rm 100 5 "Foo" = 0 :=
  ⟨by decide, C10_unrecognized_label_sentinel 100 5 "Foo" (by decide)⟩

/-- Claim C3, counterexample to the original wording: at an unrecognized
selector the code does not fail with an UnknownFormula error; it returns
the sentinel value 0. -/
theorem C3_counterexample_returns_sentinel :
    get_1rm 100 5 "Ukendt" = 0 :=
  get_1rm_of_unrecognized 100 5 "Ukendt" (by decide) (by decide) (by decide)
    (by decide) (by decide)

/-- Claim C3 as amended: for every weight and reps, when the Estimator is
called with a selector that is none of the recognized formula labels, it
returns the sentinel value 0 (and does not throw an unhandled exception). -/
theorem C3_unknown_formula_sentinel (weight : ℝ) (reps : ℕ) (method : String)
    (h1 : method ≠ "Epley") (h2 : method ≠ "Brzycki")
    (h3 : method ≠ "Lombardi") (h4 : method ≠ "O\x27Conner")
    (h5 : method ≠ "Gennemsnit") : get_1rm weight reps method = 0 :=
  get_1rm_of_unrecognized weight reps method h1 h2 h3 h4 h5

/-- Witness for the amended C3 at the unrecognized label Ukendt. -/
theorem C3_unknown_formula_sentinel_witness :
    ("Ukendt" ≠ "Epley" ∧ "Ukendt" ≠ "Brzycki" ∧ "Ukendt" ≠ "Lombardi" ∧
      "Ukendt" ≠ "O\x27Conner" ∧ "Ukendt" ≠ "Gennemsnit") ∧
      get_1rm 50 3 "Ukendt" = 0 :=
  ⟨⟨by decide, by decide, by decide, by decide, by decide⟩,
    C3_unknown_formula_sentinel 50 3 "Ukendt" (by decide) (by decide)
      (by decide) (by decide) (by decide)⟩

/-- Claim C7, counterexample to the original wording: at weight -5, reps 5,
the Epley path computes a result (-35/6) instead of failing with an
InvalidInput error. -/
theorem C7_counterexample_computes_result :
    get_1rm (-5) 5 "Epley" = -(35 / 6 : ℝ) := by
  rw [get_1rm_epley]
  simp only [calculate_epley]
  norm_num

/-- Claim C7 as amended: the Estimator performs no input validation; for
weight < 0 and reps >= 2 the Epley path evaluates the formula on the inputs
as given, producing weight * (1 + reps / 30), which is even strictly below
the invalid weight (no clamping, no error). -/
theorem C7_no_input_validation (weight : ℝ) (reps : ℕ)
    (hw : weight < 0) (hr : 2 ≤ reps) :
    get_1rm weight reps "Epley" = weight * (1 + (reps : ℝ) / 30) ∧
      get_1rm weight reps "Epley" < weight := by
  have hne : reps ≠ 1 := by omega
  rw [get_1rm_epley]
  simp only [calculate_epley, if_neg hne]
  refine ⟨trivial, ?_⟩
  have h2 : (2 : ℝ) ≤ (reps : ℝ) := by exact_mod_cast hr
  have hpos : (0 : ℝ) < (reps : ℝ) / 30 := by positivity
  nlinarith [mul_neg_of_neg_of_pos hw hpos]

/-- Witness for the amended C7 at weight -5, reps 5. -/
theorem C7_no_input_validation_witness :
    (-5 : ℝ) < 0 ∧ 2 ≤ 5 ∧
      (get_1rm (-5) 5 "Epley" = -5 * (1 + ((5 : ℕ) : ℝ) / 30) ∧
        get_1rm (-5) 5 "Epley" < -5) :=
  ⟨by norm_num, by norm_num,
    C7_no_input_validation (-5) 5 (by norm_num) (by norm_num)⟩

/-- Claim C1: for every start value, experience rate, nutrition multiplier
and weeks >= 0, at every week w in 0..weeks the average column equals
start * (1 + rate_avg) ^ w, the optimistic column start * (1 + rate_high) ^ w
and the conservative column start * (1 + rate_low) ^ w; in particular row 0
equals start in all three columns. -/
theorem C1_compound_growth_closed_form (current_1rm : ℝ) (fc : String)
    (base_rate modifier : ℝ) (weeks : ℤ) (hweeks : 0 ≤ weeks)
    (w : ℕ) (hw : (w : ℤ) ≤ weeks) :
    (projection_data current_1rm fc base_rate modifier weeks)[w]? =
      some ⟨(w : ℤ), fc,
        current_1rm * (1 + weekly_rate_avg base_rate modifier) ^ w,
        current_1rm * (1 + weekly_rate_high base_rate modifier) ^ w,
        current_1rm * (1 + weekly_rate_low base_rate modifier) ^ w⟩ := by
  have h : w < (weeks + 1).toNat := by omega
  rw [projection_data,
    projectionLoop_getElem fc _ _ _ ((weeks + 1).toNat) w 0 _ _ _ h]
  rw [zero_add]

/-- Witness for C1 at start 100, rates 1 and 1, weeks 2, week index 2. -/
theorem C1_compound_growth_closed_form_witness :
    (0 : ℤ) ≤ 2 ∧ ((2 : ℕ) : ℤ) ≤ 2 ∧
      (projection_data 100 "Epley" 1 1 2)[2]? =
        some ⟨((2 : ℕ) : ℤ), "Epley", 100 * (1 + weekly_rate_avg 1 1) ^ 2,
          100 * (1 + weekly_rate_high 1 1) ^ 2,
          100 * (1 + weekly_rate_low 1 1) ^ 2⟩ :=
  ⟨by norm_num, by norm_num,
    C1_compound_growth_closed_form 100 "Epley" 1 1 2 (by norm_num) 2
      (by norm_num)⟩

/-- Claim C6: the projection series for weeks >= 0 contains exactly
weeks + 1 rows. -/
theorem C6_series_length (current_1rm : ℝ) (fc : String)
    (base_rate modifier : ℝ) (weeks : ℤ) (hweeks : 0 ≤ weeks) :
    ((projection_data current_1rm fc base_rate modifier weeks).length : ℤ) =
      weeks + 1 := by
  rw [projection_data, projectionLoop_length]
  omega

/-- Witness for C6 at weeks 3. -/
theorem C6_series_length_witness :
    (0 : ℤ) ≤ 3 ∧
      ((projection_data 100 "Epley" 0.0125 1.2 3).length : ℤ) = 3 + 1 :=
  ⟨by norm_num, C6_series_length 100 "Epley" 0.0125 1.2 3 (by norm_num)⟩

/-- Claim C2, counterexample to the original wording: the ordering claim
quantifies over every start value, but at the negative start -1 (with
base rate 1 and modifier 1, whose derived rates 1.5 >= 1 >= 0.5 >= 0 satisfy
the claim's rate hypothesis) the week-1 row has optimistic value -5/2
strictly below the average value -2, violating optimistic >= average. -/
theorem C2_counterexample_negative_start :
    (weekly_rate_high 1 1 ≥ weekly_rate_avg 1 1 ∧
      weekly_rate_avg 1 1 ≥ weekly_rate_low 1 1 ∧
      weekly_rate_low 1 1 ≥ 0) ∧
      (projection_data (-1) "Epley" 1 1 1)[1]? =
        some ⟨1, "Epley", -2, -(5 / 2 : ℝ), -(3 / 2 : ℝ)⟩ ∧
      ¬ ((-2 : ℝ) ≤ -(5 / 2 : ℝ)) := by
  refine ⟨⟨?_, ?_, ?_⟩, ?_, by norm_num⟩
  · norm_num [weekly_rate_high, weekly_rate_avg]
  · norm_num [weekly_rate_avg, weekly_rate_low]
  · norm_num [weekly_rate_low]
  · rw [projection_data]
    rw [show ((1 : ℤ) + 1).toNat = 2 from rfl]
    rw [projectionLoop_getElem _ _ _ _ 2 1 0 _ _ _ (by norm_num)]
    simp only [ProjectionRow.mk.injEq, Option.some.injEq]
    norm_num [weekly_rate_avg, weekly_rate_high, weekly_rate_low]

/-- Claim C2 as amended: for every non-negative start value and weeks >= 0,
whenever the derived rates satisfy rate_high >= rate_avg >= rate_low >= 0,
every row of the projection satisfies
optimistic >= average >= conservative. -/
theorem C2_projection_ordering (current_1rm : ℝ) (fc : String)
    (base_rate modifier : ℝ) (weeks : ℤ) (hstart : 0 ≤ current_1rm)
    (h1 : weekly_rate_high base_rate modifier ≥
      weekly_rate_avg base_rate modifier)
    (h2 : weekly_rate_avg base_rate modifier ≥
      weekly_rate_low base_rate modifier)
    (h3 : weekly_rate_low base_rate modifier ≥ 0)
    (row : ProjectionRow)
    (hrow : row ∈ projection_data current_1rm fc base_rate modifier weeks) :
    row.konservativ ≤ row.estimeret_1rm ∧
      row.estimeret_1rm ≤ row.optimistisk := by
  have h := projectionLoop_ordering fc _ _ _ h3 h2 h1 ((weeks + 1).toNat) 0
    current_1rm current_1rm current_1rm hstart le_rfl le_rfl row hrow
  exact ⟨h.2.1, h.2.2⟩

/-- Witness for the amended C2: the week-0 row at start 100, rates 1, 1,
weeks 0. -/
theorem C2_projection_ordering_witness :
    ((0 : ℝ) ≤ 100 ∧
      weekly_rate_high 1 1 ≥ weekly_rate_avg 1 1 ∧
      weekly_rate_avg 1 1 ≥ weekly_rate_low 1 1 ∧
      weekly_rate_low 1 1 ≥ 0 ∧
      (⟨0, "Epley", 100, 100, 100⟩ : ProjectionRow) ∈
        projection_data 100 "Epley" 1 1 0) ∧
      (ProjectionRow.mk 0 "Epley" 100 100 100).konservativ ≤
        (ProjectionRow.mk 0 "Epley" 100 100 100).estimeret_1rm ∧
      (ProjectionRow.mk 0 "Epley" 100 100 100).estimeret_1rm ≤
        (ProjectionRow.mk 0 "Epley" 100 100 100).optimistisk := by
  have hmem : (⟨0, "Epley", 100, 100, 100⟩ : ProjectionRow) ∈
      projection_data 100 "Epley" 1 1 0 := by
    have h := projectionLoop_getElem "Epley" (weekly_rate_avg 1 1)
      (weekly_rate_high 1 1) (weekly_rate_low 1 1) 1 0 0 100 100 100
      (by norm_num)
    rw [projection_data, show ((0 : ℤ) + 1).toNat = 1 from rfl]
    apply List.getElem?_mem
    rw [h]
    norm_num
  refine ⟨⟨by norm_num, ?_, ?_, ?_, hmem⟩, ?_⟩
  · norm_num [weekly_rate_high, weekly_rate_avg]
  · norm_num [weekly_rate_avg, weekly_rate_low]
  · norm_num [weekly_rate_low]
  · exact C2_projection_ordering 100 "Epley" 1 1 0 (by norm_num)
      (by norm_num [weekly_rate_high, weekly_rate_avg])
      (by norm_num [weekly_rate_avg, weekly_rate_low])
      (by norm_num [weekly_rate_low]) _ hmem

/-- Claim C8, counterexample to the original wording: at weeks = -3 the
code does not fail with an InvalidRange error; the loop body never runs and
it produces the empty projection series. -/
theorem C8_counterexample_empty_series :
    projection_data 100 "Epley" 0.01 1 (-3) = [] := rfl

/-- Claim C8 as amended: for every start, rate and multiplier, calling the
projection with weeks < 0 produces the empty series (the Python range is
empty), rather than failing with an InvalidRange error. -/
theorem C8_negative_weeks_empty (current_1rm : ℝ) (fc : String)
    (base_rate modifier : ℝ) (weeks : ℤ) (h : weeks < 0) :
    projection_data current_1rm fc base_rate modifier weeks = [] := by
  rw [projection_data, show (weeks + 1).toNat = 0 from by omega,
    projectionLoop]

/-- Witness for the amended C8 at weeks = -3. -/
theorem C8_negative_weeks_empty_witness :
    (-3 : ℤ) < 0 ∧ projection_data 100 "Epley" 0.01 1 (-3) = [] :=
  ⟨by norm_num, C8_negative_weeks_empty 100 "Epley" 0.01 1 (-3) (by norm_num)⟩
